import Mathlib

/-!
Verification of the car-store controller layer
(`src/app/modules/car/car.controller.ts`, exported as `CarController`).

The controller is a set of five Express request handlers.  Each handler
inspects the outcome of a data-access call (a returned value, or a thrown
JavaScript value caught by the surrounding `try`/`catch`) and produces an
HTTP status code together with a JSON response body.  We embed the JSON
values exchanged, the possible thrown values, and each handler as a pure
function from the data-access outcome to `Nat × JValue` (status, body).

Conventions of the embedding:
* `JValue` models the JSON values Express serialises with `res.json`.
  A field whose JavaScript value is `undefined` is omitted from the
  serialised object, which we model with `jObjOpt`.
* A thrown JavaScript value is modelled by `Thrown`: a `ZodError`
  (which is an `instanceof Error`), some other `Error` instance, or a
  non-`Error` value (JavaScript allows `throw` of any value).  The
  source's `err instanceof Error` test is modelled by `errView`, which
  succeeds on both `ZodError`s and plain `Error`s.
* JavaScript truthiness of a field access such as `updateData.price`
  (where a missing property reads as `undefined`) is modelled by
  `truthyOpt` composed with an object lookup.
* The Update and Delete handlers return `Option (Nat × JValue)`: their
  non-`Error` catch branch reads `(err as Error).message`, which itself
  throws a TypeError when the thrown value is `null`/`undefined`; in that
  case `res.json` is never reached and no response is sent, modelled as
  `none`.  The other handlers' branches never perform an unguarded
  property access, so they always respond and stay `(Nat × JValue)`-valued.
-/

/-- JSON values, as produced by `res.json`. -/
inductive JValue : Type where
  | jNull : JValue
  | jBool : Bool → JValue
  | jNum : Int → JValue
  | jStr : String → JValue
  | jArr : List JValue → JValue
  | jObj : List (String × JValue) → JValue

/-- The fields of a JSON object (`[]` on non-objects). -/
def fieldsOf : JValue → List (String × JValue)
  | .jObj l => l
  | _ => []

/-- Build a JSON object from fields whose values may be `undefined`
(`none`); such fields are omitted, as `JSON.stringify` does. -/
def jObjOpt (fields : List (String × Option JValue)) : JValue :=
  .jObj (fields.filterMap (fun p => p.2.map (fun v => (p.1, v))))

/-- JavaScript truthiness of a JSON value. -/
def jsTruthy : JValue → Bool
  | .jNull => false
  | .jBool b => b
  | .jNum n => n != 0
  | .jStr s => s != ""
  | .jArr _ => true
  | .jObj _ => true

/-- Truthiness of a property read: a missing property (`undefined`) is falsy. -/
def truthyOpt : Option JValue → Bool
  | none => false
  | some v => jsTruthy v

/-- Descend through nested JSON objects along a list of keys. -/
def getPath : JValue → List String → Option JValue
  | v, [] => some v
  | v, k :: ks =>
    match (fieldsOf v).lookup k with
    | some v' => getPath v' ks
    | none => none

/-- Does the object `v` have a field `k` whose value is a boolean? -/
def hasBoolFieldB (v : JValue) (k : String) : Bool :=
  match (fieldsOf v).lookup k with
  | some (.jBool _) => true
  | _ => false

/-- Does the object `v` have a field named `k`? -/
def hasKeyB (v : JValue) (k : String) : Bool :=
  ((fieldsOf v).lookup k).isSome

/-- The keys of a JSON object, in order. -/
def keysOf (v : JValue) : List String :=
  (fieldsOf v).map Prod.fst

/-- A JavaScript `Error` instance: `name`, `message`, and an optional
`stack` (which may be `undefined` at runtime). -/
structure JsError : Type where
  name : String
  message : String
  stack : Option String

/-- One issue of a `ZodError`: a path into the payload and a message. -/
structure ZodIssue : Type where
  path : List String
  message : String

/-- The data of a `z.ZodError`: its issue list (`err.errors`) together
with the `Error` fields it inherits (`name`, `message`, `stack`). -/
structure ZodErrorData : Type where
  issues : List ZodIssue
  name : String
  message : String
  stack : Option String

/-- A JavaScript value reaching a `catch (err)` block: a `ZodError`,
another `Error` instance, or an arbitrary non-`Error` value. -/
inductive Thrown : Type where
  | zod : ZodErrorData → Thrown
  | err : JsError → Thrown
  | other : JValue → Thrown

/-- The source's `err instanceof Error` test: a `ZodError` is an `Error`
(with its inherited `name`/`message`/`stack`); a non-`Error` value is not. -/
def errView : Thrown → Option JsError
  | .zod z => some ⟨z.name, z.message, z.stack⟩
  | .err e => some e
  | .other _ => none

/-- `error.path.join('.')`. -/
def joinPath (p : List String) : String :=
  String.intercalate "." p

/-- `err.stack || null`: `undefined` and the empty string both give `null`. -/
def stackOrNull : Option String → JValue
  | none => .jNull
  | some s => if s == "" then .jNull else .jStr s

/-- Object-key assignment `acc[k] = v`: replaces the value in place when
the key exists, appends otherwise. -/
def setKey (obj : List (String × JValue)) (k : String) (v : JValue) :
    List (String × JValue) :=
  if obj.any (fun p => p.1 == k) then
    obj.map (fun p => if p.1 == k then (k, v) else p)
  else
    obj ++ [(k, v)]

/-- The per-issue detail object built by `createACar`'s reducer:
`{message, name: 'ValidatorError', properties: {message, path}}`. -/
def detailOf (i : ZodIssue) : JValue :=
  .jObj [("message", .jStr i.message),
         ("name", .jStr "ValidatorError"),
         ("properties", .jObj [("message", .jStr i.message),
                               ("path", .jStr (joinPath i.path))])]

/-- `err.errors.reduce(...)` of `createACar`: fold the issues into a
record keyed by each issue's joined path. -/
def errorDetails (issues : List ZodIssue) : List (String × JValue) :=
  issues.foldl (fun acc i => setKey acc (joinPath i.path) (detailOf i)) []

/-- `createACar`.  The outcome covers the whole `try` block: `ok result`
when validation and `createCarIntoDB` both succeed, `error t` when either
throws (a validation failure throws a `ZodError`). -/
def createACar (outcome : Except Thrown JValue) : Nat × JValue :=
  match outcome with
  | .ok result =>
      (200, .jObj [("message", .jStr "Car created successfully"),
                   ("success", .jBool true),
                   ("data", result)])
  | .error (.zod z) =>
      (400, .jObj [("message", .jStr "Validation failed"),
                   ("success", .jBool false),
                   ("error", .jObj [("name", .jStr "ValidationError"),
                                    ("errors", .jObj (errorDetails z.issues))]),
                   ("stack", stackOrNull z.stack)])
  | .error (.err e) =>
      (500, jObjOpt [("message", some (.jStr "Car could not be created!")),
                     ("success", some (.jBool false)),
                     ("error", some (.jObj [("name", .jStr e.name),
                                            ("message", .jStr e.message)])),
                     ("stack", e.stack.map .jStr)])
  | .error (.other _) =>
      (500, .jObj [("message", .jStr "Car could not be created!"),
                   ("success", .jBool false),
                   ("error", .jObj [("name", .jStr "UnknownError"),
                                    ("message", .jStr "An unknown error occurred")]),
                   ("stack", .jNull)])

/-- `getAllCars`.  The outcome is the result of
`CarService.getAllCarsFromDB(searchTerm)`, or the value it threw. -/
def getAllCars (outcome : Except Thrown (List JValue)) : Nat × JValue :=
  match outcome with
  | .ok result =>
      if result.length > 0 then
        (200, .jObj [("message", .jStr "Cars retrieved successfully"),
                     ("status", .jBool true),
                     ("data", .jArr result)])
      else
        (404, .jObj [("success", .jBool false),
                     ("message", .jStr "No cars found."),
                     ("data", .jNull)])
  | .error t =>
      match errView t with
      | some e =>
          (500, .jObj [("message", .jStr "An error occurred while fetching cars"),
                       ("success", .jBool false),
                       ("error", jObjOpt [("name", some (.jStr e.name)),
                                          ("message", some (.jStr e.message)),
                                          ("stack", e.stack.map .jStr)])])
      | none =>
          (500, .jObj [("message", .jStr "An unexpected error occurred"),
                       ("success", .jBool false),
                       ("error", .jObj [("name", .jStr "UnknownError"),
                                        ("message", .jStr "An unknown error occurred"),
                                        ("stack", .jStr "No stack trace available")])])

/-- `getSingleCar`.  The outcome is `CarService.getSingleCarFromDB(carId)`:
a found record, `null` (`ok none`), or a thrown value. -/
def getSingleCar (outcome : Except Thrown (Option JValue)) : Nat × JValue :=
  match outcome with
  | .ok (some result) =>
      (200, .jObj [("message", .jStr "Car retrieved successfully"),
                   ("status", .jBool true),
                   ("data", result)])
  | .ok none =>
      (404, .jObj [("success", .jBool false),
                   ("message", .jStr "No cars found."),
                   ("data", .jNull)])
  | .error t =>
      match errView t with
      | some _ =>
          (404, .jObj [("success", .jBool false),
                       ("message", .jStr "Car not found")])
      | none =>
          (500, .jObj [("message", .jStr "An unexpected error occurred"),
                       ("success", .jBool false),
                       ("error", .jObj [("name", .jStr "UnknownError"),
                                        ("message", .jStr "An unknown error occurred"),
                                        ("stack", .jStr "No stack trace available")])])

/-- The source's `!updateData.price || !updateData.quantity` guard, negated:
both property reads are truthy. -/
def passesPQ (updateData : List (String × JValue)) : Bool :=
  truthyOpt (updateData.lookup "price") && truthyOpt (updateData.lookup "quantity")

/-- `(err as Error).message || 'Unknown error'` applied to a non-`Error`
thrown value.  The property read on `null`/`undefined` (both modelled by
`jNull`) itself throws a TypeError, so the expression produces no value at
all: `none`.  On any other non-`Error` value the read is safe: an object's
own truthy `message` is used, and a missing or falsy `message` (as on
strings or numbers, where the property is `undefined`) falls back to the
`'Unknown error'` string. -/
def jsMessageOf : JValue → Option JValue
  | .jNull => none
  | .jObj l =>
    some (match l.lookup "message" with
          | some v => if jsTruthy v then v else .jStr "Unknown error"
          | none => .jStr "Unknown error")
  | _ => some (.jStr "Unknown error")

/-- The part of `updateACar` after both payload checks pass: the outcome
of `CarService.updateACarIntoDB(carId, updateData)` (a record, `null`, or
a thrown value) mapped through the success branch and the `catch`.
`none` models the crash path: for a thrown `null`/`undefined` the 500
branch's `(err as Error).message` access throws while building the
response object, `res.json` is never reached and no response is sent. -/
def updateDelegated (outcome : Except Thrown (Option JValue)) : Option (Nat × JValue) :=
  match outcome with
  | .ok none =>
      some (404, .jObj [("success", .jBool false),
                        ("message", .jStr "Car not found")])
  | .ok (some result) =>
      some (200, .jObj [("message", .jStr "Car updated successfully"),
                        ("status", .jBool true),
                        ("data", result)])
  | .error (.zod z) =>
      some (400, .jObj [("success", .jBool false),
                        ("message", .jStr "Validation error"),
                        ("errors", .jArr (z.issues.map (fun i =>
                          .jObj [("path", .jStr (joinPath i.path)),
                                 ("errorMessage", .jStr i.message)])))])
  | .error (.err _) =>
      some (404, .jObj [("success", .jBool false),
                        ("message", .jStr "Car not found")])
  | .error (.other v) =>
      match jsMessageOf v with
      | some m =>
          some (500, .jObj [("success", .jBool false),
                            ("message", .jStr "An error occurred while updating the car"),
                            ("error", m)])
      | none => none

/-- `updateACar`: the empty-payload check, the price/quantity truthiness
check, then delegation to data access.  `none` models a crashed handler
that sent no response (see `updateDelegated`). -/
def updateACar (updateData : List (String × JValue))
    (outcome : Except Thrown (Option JValue)) : Option (Nat × JValue) :=
  if updateData.length == 0 then
    some (400, .jObj [("success", .jBool false),
                      ("message", .jStr "At least one field must be provided for update")])
  else if !(passesPQ updateData) then
    some (400, .jObj [("success", .jBool false),
                      ("message", .jStr "Price and quantity must be provided")])
  else
    updateDelegated outcome

/-- `deleteACar`.  The outcome is `CarService.deleteACarFromDB(carId)`:
its return value is unused, so only throw/no-throw matters.  As in
`updateDelegated`, `none` models the crash on a thrown `null`/`undefined`,
whose `(err as Error).message` access throws before `res.json` runs. -/
def deleteACar (outcome : Except Thrown Unit) : Option (Nat × JValue) :=
  match outcome with
  | .ok _ =>
      some (200, .jObj [("message", .jStr "Car deleted successfully"),
                        ("status", .jBool true),
                        ("data", .jObj [])])
  | .error (.zod z) =>
      some (400, .jObj [("success", .jBool false),
                        ("message", .jStr "Validation error"),
                        ("errors", .jArr (z.issues.map (fun i =>
                          .jObj [("path", .jStr (joinPath i.path)),
                                 ("errorMessage", .jStr i.message)])))])
  | .error (.err _) =>
      some (404, .jObj [("success", .jBool false),
                        ("message", .jStr "Car not found")])
  | .error (.other v) =>
      match jsMessageOf v with
      | some m =>
          some (500, .jObj [("success", .jBool false),
                            ("message", .jStr "An error occurred while deleting the car"),
                            ("error", m)])
      | none => none

/-! ### Shared facts about the responses -/

/-- A response body contains `success: false` (JS boolean) among its fields. -/
def successFalse (r : Nat × JValue) : Prop :=
  (fieldsOf r.2).lookup "success" = some (.jBool false)

/-- A response body either has a boolean `success` field, or it is a 200
response carrying the field `status: true` in its place. -/
def envelopeOk (r : Nat × JValue) : Prop :=
  hasBoolFieldB r.2 "success" = true ∨
    (r.1 = 200 ∧ (fieldsOf r.2).lookup "status" = some (JValue.jBool true))

/-! ### Claim theorems -/

/-- getAllCars on a non-empty result: the 200 branch, written out. -/
theorem getAllCars_ok_cons (a : JValue) (as : List JValue) :
    getAllCars (Except.ok (a :: as)) =
      (200, JValue.jObj [("message", .jStr "Cars retrieved successfully"),
                         ("status", .jBool true),
                         ("data", .jArr (a :: as))]) := by
  unfold getAllCars
  exact if_pos (Nat.succ_pos as.length)

/-- C1 counterexample: the claim says every response body carries a boolean
`success` field, but the 200 response of the List handler for a non-empty
result has no `success` field at all (its flag is named `status`). -/
theorem C1_counterexample :
    (getAllCars (Except.ok [JValue.jNull])).1 = 200 ∧
    hasBoolFieldB (getAllCars (Except.ok [JValue.jNull])).2 "success" = false := by
  exact ⟨rfl, rfl⟩

/-- C1 (amended): every response of every car-controller handler either
carries a boolean `success` field, or is a 200 success response carrying
the field `status: true` in its place (the 200 bodies of List, Get-by-id,
Update and Delete use `status: true`; Create's 200 body and every error
body use `success`).  Update and Delete responses are quantified over the
responses actually produced (`some r`). -/
theorem C1_amended_envelope :
    (∀ o, envelopeOk (createACar o)) ∧
    (∀ o, envelopeOk (getAllCars o)) ∧
    (∀ o, envelopeOk (getSingleCar o)) ∧
    (∀ pd o r, updateACar pd o = some r → envelopeOk r) ∧
    (∀ o r, deleteACar o = some r → envelopeOk r) := by
  refine ⟨?_, ?_, ?_, ?_, ?_⟩
  · intro o
    cases o with
    | ok r => exact Or.inl rfl
    | error t => rcases t with z | e | v <;> exact Or.inl rfl
  · intro o
    cases o with
    | ok r =>
      rcases r with _ | ⟨a, as⟩
      · exact Or.inl rfl
      · exact Or.inr ⟨congrArg Prod.fst (getAllCars_ok_cons a as),
          by rw [getAllCars_ok_cons a as]; rfl⟩
    | error t => rcases t with z | e | v <;> exact Or.inl rfl
  · intro o
    cases o with
    | ok r =>
      rcases r with _ | r
      · exact Or.inl rfl
      · exact Or.inr ⟨rfl, rfl⟩
    | error t => rcases t with z | e | v <;> exact Or.inl rfl
  · intro pd o r
    unfold updateACar
    split
    · intro h; cases h; exact Or.inl rfl
    · split
      · intro h; cases h; exact Or.inl rfl
      · cases o with
        | ok rr =>
          rcases rr with _ | rr
          · intro h; cases h; exact Or.inl rfl
          · intro h; cases h; exact Or.inr ⟨rfl, rfl⟩
        | error t =>
          rcases t with z | e | v
          · intro h; cases h; exact Or.inl rfl
          · intro h; cases h; exact Or.inl rfl
          · cases v <;> intro h <;> cases h <;> exact Or.inl rfl
  · intro o r
    cases o with
    | ok u => intro h; cases h; exact Or.inr ⟨rfl, rfl⟩
    | error t =>
      rcases t with z | e | v
      · intro h; cases h; exact Or.inl rfl
      · intro h; cases h; exact Or.inl rfl
      · cases v <;> intro h <;> cases h <;> exact Or.inl rfl

/-- C2 counterexample: the claim says every thrown error during the
Get-by-id lookup yields 404, never 500; but a thrown non-`Error` value
(JavaScript permits `throw "boom"`) falls into the `else` branch and
yields 500. -/
theorem C2_counterexample :
    (getSingleCar (Except.error (Thrown.other (JValue.jStr "boom")))).1 = 500 := rfl

/-- C2 (amended): for Get-by-id, a `null` lookup result yields 404, and a
thrown `Error` instance (including `ZodError`s) yields 404; but a thrown
non-`Error` value yields 500. -/
theorem C2_amended_getSingle_404 :
    (getSingleCar (Except.ok none)).1 = 404 ∧
    (∀ z, (getSingleCar (Except.error (Thrown.zod z))).1 = 404) ∧
    (∀ e, (getSingleCar (Except.error (Thrown.err e))).1 = 404) ∧
    (∀ v, (getSingleCar (Except.error (Thrown.other v))).1 = 500) :=
  ⟨rfl, fun _ => rfl, fun _ => rfl, fun _ => rfl⟩

/-- C4: for List, a non-empty data-access result yields 200 with the full
list as `data`, and an empty result yields 404 with the `No cars found.`
message; a 200 status occurs exactly when the result is non-empty. -/
theorem C4_list_boundary : ∀ result : List JValue,
    ((getAllCars (Except.ok result)).1 = 200 ↔ result ≠ []) ∧
    (result ≠ [] → (getAllCars (Except.ok result)).2 =
      JValue.jObj [("message", .jStr "Cars retrieved successfully"),
                   ("status", .jBool true),
                   ("data", .jArr result)]) ∧
    (result = [] → getAllCars (Except.ok result) =
      (404, JValue.jObj [("success", .jBool false),
                         ("message", .jStr "No cars found."),
                         ("data", .jNull)])) := by
  intro result
  rcases result with _ | ⟨a, as⟩
  · refine ⟨?_, ?_, ?_⟩
    · constructor
      · intro h; exact absurd h (by decide)
      · intro h; exact absurd rfl h
    · intro h; exact absurd rfl h
    · intro _; rfl
  · refine ⟨?_, ?_, ?_⟩
    · constructor
      · intro _; exact List.cons_ne_nil a as
      · intro _; exact congrArg Prod.fst (getAllCars_ok_cons a as)
    · intro _; exact congrArg Prod.snd (getAllCars_ok_cons a as)
    · intro h; exact absurd h (List.cons_ne_nil a as)

/-- C4 witness: the theorem applied at a one-element result and at the
empty result. -/
theorem C4_list_boundary_witness :
    ((getAllCars (Except.ok [JValue.jNull])).1 = 200 ↔ [JValue.jNull] ≠ ([] : List JValue)) ∧
    getAllCars (Except.ok ([] : List JValue)) =
      (404, JValue.jObj [("success", .jBool false),
                         ("message", .jStr "No cars found."),
                         ("data", .jNull)]) :=
  ⟨(C4_list_boundary [JValue.jNull]).1, (C4_list_boundary []).2.2 rfl⟩

/-- C6: every non-`ZodError` failure during Create yields a 500 envelope
whose `error` object carries the thrown `Error`'s own `name` and
`message`, and the placeholder `UnknownError` name and message when the
thrown value was not an `Error` instance. -/
theorem C6_create_unexpected_500 :
    (∀ e : JsError, (createACar (Except.error (Thrown.err e))).1 = 500 ∧
      getPath (createACar (Except.error (Thrown.err e))).2 ["error", "name"] =
        some (.jStr e.name) ∧
      getPath (createACar (Except.error (Thrown.err e))).2 ["error", "message"] =
        some (.jStr e.message)) ∧
    (∀ v, (createACar (Except.error (Thrown.other v))).1 = 500 ∧
      getPath (createACar (Except.error (Thrown.other v))).2 ["error", "name"] =
        some (.jStr "UnknownError") ∧
      getPath (createACar (Except.error (Thrown.other v))).2 ["error", "message"] =
        some (.jStr "An unknown error occurred")) :=
  ⟨fun _ => ⟨rfl, rfl, rfl⟩, fun _ => ⟨rfl, rfl, rfl⟩⟩

/-- C8: when the data-access delete call does not throw, Delete responds
200 with the empty object as `data`, with no existence check anywhere. -/
theorem C8_delete_ok_200 :
    deleteACar (Except.ok ()) =
      some (200, JValue.jObj [("message", .jStr "Car deleted successfully"),
                              ("status", .jBool true),
                              ("data", .jObj [])]) ∧
    (fieldsOf (JValue.jObj [("message", .jStr "Car deleted successfully"),
                            ("status", .jBool true),
                            ("data", .jObj [])])).lookup "data" = some (JValue.jObj []) :=
  ⟨rfl, rfl⟩

/-- C9 counterexample: the claim says the Delete error path only produces
404 or 500, but a thrown `ZodError` is mapped to 400. -/
theorem C9_counterexample :
    deleteACar (Except.error
      (Thrown.zod ⟨[⟨["price"], "Required"⟩], "ZodError", "invalid", none⟩)) =
      some (400, JValue.jObj [("success", .jBool false),
                              ("message", .jStr "Validation error"),
                              ("errors", .jArr [.jObj [("path", .jStr "price"),
                                                       ("errorMessage", .jStr "Required")]])]) :=
  rfl

/-- C9 (amended): on the Delete error path a thrown `ZodError` yields 400
and any other thrown `Error` instance yields 404.  For a thrown
non-`Error` value the handler reads `(err as Error).message`: when the
thrown value is `null`/`undefined` that read itself throws and no response
is sent at all; otherwise the handler yields 500.  Every response the
error path does produce has status 400, 404 or 500. -/
theorem C9_amended_delete_errors :
    (∀ z, ∃ b, deleteACar (Except.error (Thrown.zod z)) = some (400, b)) ∧
    (∀ e, ∃ b, deleteACar (Except.error (Thrown.err e)) = some (404, b)) ∧
    (∀ v, v ≠ JValue.jNull →
      ∃ b, deleteACar (Except.error (Thrown.other v)) = some (500, b)) ∧
    deleteACar (Except.error (Thrown.other JValue.jNull)) = none ∧
    (∀ t r, deleteACar (Except.error t) = some r →
      r.1 = 400 ∨ r.1 = 404 ∨ r.1 = 500) := by
  refine ⟨fun z => ⟨_, rfl⟩, fun e => ⟨_, rfl⟩, ?_, rfl, ?_⟩
  · intro v hv
    cases v with
    | jNull => exact absurd rfl hv
    | jBool b => exact ⟨_, rfl⟩
    | jNum n => exact ⟨_, rfl⟩
    | jStr t => exact ⟨_, rfl⟩
    | jArr l => exact ⟨_, rfl⟩
    | jObj l => exact ⟨_, rfl⟩
  · intro t r h
    rcases t with z | e | v
    · cases h; exact Or.inl rfl
    · cases h; exact Or.inr (Or.inl rfl)
    · cases v <;> cases h <;> exact Or.inr (Or.inr rfl)

/-- C9 witness: the amended theorem at a thrown string (a 500 response)
and at a concrete thrown `Error` (a 404 response within the allowed
statuses). -/
theorem C9_amended_delete_errors_witness :
    (∃ b, deleteACar (Except.error (Thrown.other (JValue.jStr "boom"))) = some (500, b)) ∧
    ((404 : Nat) = 400 ∨ (404 : Nat) = 404 ∨ (404 : Nat) = 500) :=
  ⟨C9_amended_delete_errors.2.2.1 (JValue.jStr "boom") (by intro h; exact JValue.noConfusion h),
   C9_amended_delete_errors.2.2.2.2 (Thrown.err ⟨"Error", "gone", none⟩)
     (404, JValue.jObj [("success", JValue.jBool false),
                        ("message", JValue.jStr "Car not found")]) rfl⟩

/-- C3 counterexample: the claim says a payload containing both a `price`
and a `quantity` field passes the check, but the guard tests JS
truthiness, so `price: 0` (present, falsy) is rejected with 400. -/
theorem C3_counterexample :
    (([("price", JValue.jNum 0), ("quantity", JValue.jNum 5)] :
        List (String × JValue)).lookup "price").isSome = true ∧
    (([("price", JValue.jNum 0), ("quantity", JValue.jNum 5)] :
        List (String × JValue)).lookup "quantity").isSome = true ∧
    updateACar [("price", JValue.jNum 0), ("quantity", JValue.jNum 5)]
      (Except.ok (some JValue.jNull)) =
      some (400, JValue.jObj [("success", .jBool false),
                              ("message", .jStr "Price and quantity must be provided")]) :=
  ⟨rfl, rfl, rfl⟩

/-- C3 (amended): for every non-empty Update payload, the handler responds
400 with the price/quantity rejection exactly when the `price` or the
`quantity` property of the payload is absent or JS-falsy (such as `0`,
`""`, `false` or `null`); when both are present and truthy the request
passes the check and is delegated to data access. -/
theorem C3_amended_update_pq : ∀ (pd : List (String × JValue)) (o : Except Thrown (Option JValue)),
    pd.length ≠ 0 →
    ((updateACar pd o =
        some (400, JValue.jObj [("success", .jBool false),
                                ("message", .jStr "Price and quantity must be provided")]))
      ↔ passesPQ pd = false) ∧
    (passesPQ pd = true → updateACar pd o = updateDelegated o) := by
  intro pd o h
  have h0 : ¬((pd.length == 0) = true) := by simpa using h
  by_cases hpq : passesPQ pd = true
  · have hdel : updateACar pd o = updateDelegated o := by
      rw [updateACar, if_neg h0, if_neg (by simp [hpq])]
    refine ⟨⟨fun heq => ?_, fun hf => absurd hpq (by simp [hf])⟩, fun _ => hdel⟩
    exfalso
    rw [hdel] at heq
    cases o with
    | ok r => rcases r with _ | r <;> simp [updateDelegated] at heq
    | error t =>
      rcases t with z | e | v
      · simp [updateDelegated] at heq
      · simp [updateDelegated] at heq
      · cases v <;> simp [updateDelegated, jsMessageOf] at heq
  · have hf : passesPQ pd = false := by
      cases hb : passesPQ pd
      · rfl
      · exact absurd hb hpq
    have hpqr : updateACar pd o =
        some (400, JValue.jObj [("success", .jBool false),
                                ("message", .jStr "Price and quantity must be provided")]) := by
      rw [updateACar, if_neg h0, if_pos (by simp [hf])]
    exact ⟨⟨fun _ => hf, fun _ => hpqr⟩, fun ht => absurd ht hpq⟩

/-- C3 witness: the amended theorem applied to a payload with truthy
`price` and `quantity`. -/
theorem C3_amended_update_pq_witness :
    ((updateACar [("price", JValue.jNum 1), ("quantity", JValue.jNum 2)] (Except.ok none) =
        some (400, JValue.jObj [("success", .jBool false),
                                ("message", .jStr "Price and quantity must be provided")]))
      ↔ passesPQ [("price", JValue.jNum 1), ("quantity", JValue.jNum 2)] = false) ∧
    (passesPQ [("price", JValue.jNum 1), ("quantity", JValue.jNum 2)] = true →
      updateACar [("price", JValue.jNum 1), ("quantity", JValue.jNum 2)] (Except.ok none) =
        updateDelegated (Except.ok none)) :=
  C3_amended_update_pq [("price", JValue.jNum 1), ("quantity", JValue.jNum 2)]
    (Except.ok none) (by decide)

/-- C7: for every Update payload that passes both checks, a `null` result
from the data-access partial-update yields 404, and a returned record
yields 200 with that record as `data`. -/
theorem C7_update_result : ∀ (pd : List (String × JValue)),
    pd.length ≠ 0 → passesPQ pd = true →
    (updateACar pd (Except.ok none) =
      some (404, JValue.jObj [("success", .jBool false),
                              ("message", .jStr "Car not found")])) ∧
    (∀ r, updateACar pd (Except.ok (some r)) =
      some (200, JValue.jObj [("message", .jStr "Car updated successfully"),
                              ("status", .jBool true),
                              ("data", r)])) := by
  intro pd h hpq
  have h0 : ¬((pd.length == 0) = true) := by simpa using h
  constructor
  · rw [updateACar, if_neg h0, if_neg (by simp [hpq])]
    rfl
  · intro r
    rw [updateACar, if_neg h0, if_neg (by simp [hpq])]
    rfl

/-- C7 witness: the theorem applied to a concrete passing payload, for
both the `null` outcome and a found record. -/
theorem C7_update_result_witness :
    updateACar [("price", JValue.jNum 1), ("quantity", JValue.jNum 2)]
        (Except.ok none) =
      some (404, JValue.jObj [("success", .jBool false),
                              ("message", .jStr "Car not found")]) ∧
    updateACar [("price", JValue.jNum 1), ("quantity", JValue.jNum 2)]
        (Except.ok (some JValue.jNull)) =
      some (200, JValue.jObj [("message", .jStr "Car updated successfully"),
                              ("status", .jBool true),
                              ("data", JValue.jNull)]) :=
  ⟨(C7_update_result [("price", JValue.jNum 1), ("quantity", JValue.jNum 2)]
      (by decide) (by decide)).1,
   (C7_update_result [("price", JValue.jNum 1), ("quantity", JValue.jNum 2)]
      (by decide) (by decide)).2 JValue.jNull⟩

/-- C10: every non-200 response of every car-controller handler carries
`success: false` in its body (for Update and Delete, quantified over the
responses actually produced). -/
theorem C10_error_success_false :
    (∀ o, (createACar o).1 ≠ 200 → successFalse (createACar o)) ∧
    (∀ o, (getAllCars o).1 ≠ 200 → successFalse (getAllCars o)) ∧
    (∀ o, (getSingleCar o).1 ≠ 200 → successFalse (getSingleCar o)) ∧
    (∀ pd o r, updateACar pd o = some r → r.1 ≠ 200 → successFalse r) ∧
    (∀ o r, deleteACar o = some r → r.1 ≠ 200 → successFalse r) := by
  refine ⟨?_, ?_, ?_, ?_, ?_⟩
  · intro o h
    cases o with
    | ok r => exact absurd rfl h
    | error t => rcases t with z | e | v <;> rfl
  · intro o h
    cases o with
    | ok r =>
      rcases r with _ | ⟨a, as⟩
      · rfl
      · exact absurd (congrArg Prod.fst (getAllCars_ok_cons a as)) h
    | error t => rcases t with z | e | v <;> rfl
  · intro o h
    cases o with
    | ok r =>
      rcases r with _ | r
      · rfl
      · exact absurd rfl h
    | error t => rcases t with z | e | v <;> rfl
  · intro pd o r
    unfold updateACar
    split
    · intro hr h; cases hr; rfl
    · split
      · intro hr h; cases hr; rfl
      · cases o with
        | ok rr =>
          rcases rr with _ | rr
          · intro hr h; cases hr; rfl
          · intro hr h; cases hr; exact absurd rfl h
        | error t =>
          rcases t with z | e | v
          · intro hr h; cases hr; rfl
          · intro hr h; cases hr; rfl
          · cases v <;> intro hr h <;> cases hr <;> rfl
  · intro o r
    cases o with
    | ok u => intro hr h; cases hr; exact absurd rfl h
    | error t =>
      rcases t with z | e | v
      · intro hr h; cases hr; rfl
      · intro hr h; cases hr; rfl
      · cases v <;> intro hr h <;> cases hr <;> rfl

/-- C10 witness: a concrete 404 Delete response carries `success: false`. -/
theorem C10_error_success_false_witness :
    successFalse (404, JValue.jObj [("success", JValue.jBool false),
                                    ("message", JValue.jStr "Car not found")]) :=
  C10_error_success_false.2.2.2.2 (Except.error (Thrown.err ⟨"Error", "boom", none⟩))
    (404, JValue.jObj [("success", JValue.jBool false),
                       ("message", JValue.jStr "Car not found")])
    rfl (by decide)

/-- Membership in `setKey obj k v`: each element is an original binding or
the new binding `(k, v)`. -/
theorem mem_setKey {obj : List (String × JValue)} {k : String} {v : JValue}
    {kv : String × JValue} (h : kv ∈ setKey obj k v) : kv ∈ obj ∨ kv = (k, v) := by
  unfold setKey at h
  by_cases ha : (obj.any (fun p => p.1 == k)) = true
  · rw [if_pos ha] at h
    rcases List.mem_map.1 h with ⟨p, hp, heq⟩
    by_cases hk : (p.1 == k) = true
    · rw [if_pos hk] at heq
      exact Or.inr heq.symm
    · rw [if_neg hk] at heq
      exact Or.inl (heq ▸ hp)
  · rw [if_neg ha] at h
    rcases List.mem_append.1 h with h1 | h1
    · exact Or.inl h1
    · exact Or.inr (List.mem_singleton.1 h1)

/-- After `setKey obj k v`, the key `k` is bound. -/
theorem lookup_setKey_self (obj : List (String × JValue)) (k : String) (v : JValue) :
    (((setKey obj k v).lookup k).isSome = true) := by
  simp only [List.lookup_isSome_iff]
  unfold setKey
  by_cases ha : (obj.any (fun p => p.1 == k)) = true
  · rw [if_pos ha]
    rcases List.any_eq_true.1 ha with ⟨p, hp, hpk⟩
    refine ⟨(k, v), List.mem_map.2 ⟨p, hp, by rw [if_pos hpk]⟩, by simp⟩
  · rw [if_neg ha]
    exact ⟨(k, v), by simp, by simp⟩

/-- `setKey` preserves the presence of every bound key. -/
theorem lookup_setKey_mono (obj : List (String × JValue)) (k : String) (v : JValue)
    (a : String) (h : ((obj.lookup a).isSome = true)) :
    (((setKey obj k v).lookup a).isSome = true) := by
  simp only [List.lookup_isSome_iff] at h ⊢
  rcases h with ⟨p, hp, hap⟩
  unfold setKey
  by_cases ha : (obj.any (fun q => q.1 == k)) = true
  · rw [if_pos ha]
    by_cases hpk : (p.1 == k) = true
    · refine ⟨(k, v), List.mem_map.2 ⟨p, hp, by rw [if_pos hpk]⟩, ?_⟩
      have h1 : a = p.1 := eq_of_beq hap
      have h2 : p.1 = k := eq_of_beq hpk
      simp [h1, h2]
    · exact ⟨p, List.mem_map.2 ⟨p, hp, by rw [if_neg hpk]⟩, hap⟩
  · rw [if_neg ha]
    exact ⟨p, List.mem_append_left _ hp, hap⟩

/-- A successful lookup names a member of the association list. -/
theorem lookup_mem {l : List (String × JValue)} {k : String} {v : JValue}
    (h : l.lookup k = some v) : (k, v) ∈ l := by
  rcases List.lookup_eq_some_iff.1 h with ⟨l₁, l₂, rfl, -⟩
  exact List.mem_append_right _ (List.mem_cons_self _ _)

/-- The detail-reducer fold preserves the presence of a bound key. -/
theorem foldl_setKey_preserves_isSome :
    ∀ (t : List ZodIssue) (acc : List (String × JValue)) (k : String),
      ((acc.lookup k).isSome = true) →
      (((t.foldl (fun a j => setKey a (joinPath j.path) (detailOf j)) acc).lookup k).isSome
        = true) := by
  intro t
  induction t with
  | nil => intro acc k h; exact h
  | cons j t ih => intro acc k h; exact ih _ k (lookup_setKey_mono _ _ _ _ h)

/-- After the detail-reducer fold, every issue's joined path is a bound key. -/
theorem foldl_setKey_key_present :
    ∀ (issues : List ZodIssue) (acc : List (String × JValue)),
      ∀ i ∈ issues,
        (((issues.foldl (fun a j => setKey a (joinPath j.path) (detailOf j)) acc).lookup
          (joinPath i.path)).isSome = true) := by
  intro issues
  induction issues with
  | nil => intro acc i h; simp at h
  | cons j t ih =>
    intro acc i h
    rcases List.mem_cons.1 h with h1 | h1
    · subst h1
      exact foldl_setKey_preserves_isSome t _ _ (lookup_setKey_self acc _ _)
    · exact ih (setKey acc _ _) i h1

/-- Every value stored by the detail-reducer fold is some issue's detail
object (given that the accumulator already satisfies this). -/
theorem foldl_setKey_values_shape :
    ∀ (issues : List ZodIssue) (acc : List (String × JValue)),
      (∀ kv ∈ acc, ∃ i' : ZodIssue, kv.2 = detailOf i') →
      ∀ kv ∈ issues.foldl (fun a j => setKey a (joinPath j.path) (detailOf j)) acc,
        ∃ i' : ZodIssue, kv.2 = detailOf i' := by
  intro issues
  induction issues with
  | nil => intro acc hacc kv h; exact hacc kv h
  | cons j t ih =>
    intro acc hacc kv h
    refine ih _ ?_ kv h
    intro kv' h'
    rcases mem_setKey h' with h1 | h1
    · exact hacc kv' h1
    · exact ⟨j, by rw [h1]⟩

/-- C5 counterexample: the claim says each violated field maps to a value
of shape `(message, ruleName)`, but the value the reducer builds for a
violated field has keys `message`, `name` and `properties` and no
`ruleName` key at all. -/
theorem C5_counterexample :
    (createACar (Except.error
      (Thrown.zod ⟨[⟨["price"], "Required"⟩], "ZodError", "invalid", none⟩))).1 = 400 ∧
    getPath (createACar (Except.error
      (Thrown.zod ⟨[⟨["price"], "Required"⟩], "ZodError", "invalid", none⟩))).2
        ["error", "errors", "price"] =
      some (JValue.jObj [("message", .jStr "Required"),
                         ("name", .jStr "ValidatorError"),
                         ("properties", .jObj [("message", .jStr "Required"),
                                               ("path", .jStr "price")])]) ∧
    hasKeyB (JValue.jObj [("message", .jStr "Required"),
                          ("name", .jStr "ValidatorError"),
                          ("properties", .jObj [("message", .jStr "Required"),
                                                ("path", .jStr "price")])]) "ruleName"
      = false :=
  ⟨rfl, rfl, rfl⟩

/-- C5 (amended): a Create payload failing schema validation yields 400,
the envelope's `error.errors` object is the reduced detail record, and for
each violated field it contains an entry keyed by that field's joined path
whose value has the shape
`(message, name: ValidatorError, properties: (message, path))`. -/
theorem C5_amended_validation_shape : ∀ z : ZodErrorData,
    (createACar (Except.error (Thrown.zod z))).1 = 400 ∧
    getPath (createACar (Except.error (Thrown.zod z))).2 ["error", "errors"] =
      some (.jObj (errorDetails z.issues)) ∧
    ∀ i ∈ z.issues, ∃ m p,
      (errorDetails z.issues).lookup (joinPath i.path) =
        some (JValue.jObj [("message", .jStr m),
                           ("name", .jStr "ValidatorError"),
                           ("properties", .jObj [("message", .jStr m),
                                                 ("path", .jStr p)])]) := by
  intro z
  refine ⟨rfl, rfl, ?_⟩
  intro i hi
  simp only [errorDetails]
  have hs := foldl_setKey_key_present z.issues [] i hi
  rcases Option.isSome_iff_exists.1 hs with ⟨v, hv⟩
  have hmem := lookup_mem hv
  rcases foldl_setKey_values_shape z.issues []
    (by intro kv h; simp at h) _ hmem with ⟨i', hi'⟩
  refine ⟨i'.message, joinPath i'.path, ?_⟩
  rw [hv]
  simp only at hi'
  rw [hi']
  rfl

/-- C5 witness: the amended theorem applied to a one-issue validation
failure. -/
theorem C5_amended_validation_shape_witness :
    ∃ m p, (errorDetails [⟨["year"], "Too old"⟩]).lookup (joinPath ["year"]) =
      some (JValue.jObj [("message", .jStr m),
                         ("name", .jStr "ValidatorError"),
                         ("properties", .jObj [("message", .jStr m),
                                               ("path", .jStr p)])]) :=
  (C5_amended_validation_shape ⟨[⟨["year"], "Too old"⟩], "ZodError", "bad", none⟩).2.2
    ⟨["year"], "Too old"⟩ (List.mem_singleton.2 rfl)
